import Mathlib

/-!
Verification development for the serverless data-lake handlers
(ingest-data-lambda.py, index-data-lambda.py, query-data-lambda.py,
lambda-function.py).

The Python handlers are shallowly embedded: Python strings become lists of
characters, the DynamoDB metadata table becomes a list of items, the S3 blob
store and the Elasticsearch/OpenSearch index become association lists, and
each handler becomes a pure Lean function over that state.  External
collaborators (S3 get/put, DynamoDB get/put/update/scan, the search cluster's
document PUT) are modelled through the narrow interfaces the handlers use;
their own failure modes beyond presence/absence of a key are out of scope.
A blob's content is abstracted by the outcome of json.loads on its decoded
text: either a parsed document (opaque) or unparseable text.
-/

namespace DataLake

/-- Python strings are modelled as lists of characters. -/
abbrev Str := List Char

/-- Embed a Lean string literal into the model's string type. -/
def str (s : String) : Str := s.data

/-- Python str.lower() (the handlers only lowercase ASCII index names). -/
def lowerStr (s : Str) : Str := s.map Char.toLower

/-- A DynamoDB metadata item.  DynamoDB items are schemaless maps; the fields
the handlers ever read are modelled as optional attributes, with only the
partition key id mandatory. -/
structure MetadataItem where
  id : Str
  timestamp : Option Str := none
  dataType : Option Str := none
  source : Option Str := none
  owner : Option Str := none
  s3Location : Option Str := none
  sizeBytes : Option Nat := none
  status : Option Str := none
  tags : Option (List Str) := none
  description : Option Str := none
  indexed : Option Bool := none
  indexedAt : Option Str := none
  deriving DecidableEq, Repr

/-- A stored S3 object, abstracted by the result of json.loads on its decoded
text: jsonText d is content that parses to the (opaque) document d, rawText is
content on which json.loads raises JSONDecodeError. -/
inductive BlobVal where
  | jsonText (d : Str)
  | rawText (s : Str)
  deriving DecidableEq, Repr

/-- The S3 blob store: an association list from (bucket, key) to content. -/
abbrev S3Store := List ((Str × Str) × BlobVal)

/-- S3 get_object: returns the stored blob, or none (NoSuchKey error). -/
def s3Get (s3 : S3Store) (bucket key : Str) : Option BlobVal :=
  (s3.find? (fun e => e.1 == (bucket, key))).map (·.2)

/-- S3 put_object: overwrite-or-insert at (bucket, key). -/
def s3Put (s3 : S3Store) (bucket key : Str) (v : BlobVal) : S3Store :=
  ((bucket, key), v) :: s3.filter (fun e => !(e.1 == (bucket, key)))

/-- The DynamoDB metadata table. -/
abbrev MetaTable := List MetadataItem

/-- DynamoDB get_item on the metadata table. -/
def getItem (table : MetaTable) (i : Str) : Option MetadataItem :=
  table.find? (fun m => m.id == i)

/-- The SET indexed, indexedAt update applied by the indexer. -/
def setIndexed (now : Str) (m : MetadataItem) : MetadataItem :=
  { m with indexed := some true, indexedAt := some now }

/-- DynamoDB update_item with UpdateExpression SET indexed, indexedAt:
updates the item when the key exists, otherwise creates a bare item holding
only the key and the updated attributes (DynamoDB upsert semantics). -/
def updateIndexed (table : MetaTable) (i : Str) (now : Str) : MetaTable :=
  if table.any (fun m => m.id == i) then
    table.map (fun m => if m.id == i then setIndexed now m else m)
  else
    table ++ [setIndexed now { id := i }]

/-- DynamoDB put_item: overwrite-or-insert the whole item by its key. -/
def putItem (table : MetaTable) (m : MetadataItem) : MetaTable :=
  if table.any (fun x => x.id == m.id) then
    table.map (fun x => if x.id == m.id then m else x)
  else
    table ++ [m]

/-- A document held by the search index: either the merged
(metadata, content, indexed_at) document built by the per-record indexing
paths, or a bare metadata item indexed by the DynamoDB-stream path. -/
inductive EsDoc where
  | dataDoc (metadata : MetadataItem) (content : Str) (indexedAt : Str)
  | metaDoc (metadata : MetadataItem)
  deriving DecidableEq, Repr

/-- The search index: an association list from (index name, document id) to
the stored document. -/
abbrev EsIndex := List ((Str × Str) × EsDoc)

/-- Document PUT (upsert by id): replaces any previous document stored under
the same (index name, document id). -/
def esPut (es : EsIndex) (indexName docId : Str) (doc : EsDoc) : EsIndex :=
  ((indexName, docId), doc) :: es.filter (fun e => !(e.1 == (indexName, docId)))

/-- Configuration read from the environment by index-data-lambda.py. -/
structure IndexConfig where
  esEndpoint : Option Str

/-- index_in_elasticsearch (index-data-lambda.py, lines 390-411): when
ES_ENDPOINT is unset it logs a warning and returns without indexing; otherwise
it lowercases the index name and PUTs the document at
https endpoint/index_name/_doc/document_id.  The cluster's own error
responses are out of scope: the PUT is modelled as succeeding. -/
def index_in_elasticsearch (cfg : IndexConfig) (es : EsIndex)
    (indexName docId : Str) (doc : EsDoc) : EsIndex :=
  match cfg.esEndpoint with
  | none => es
  | some _ => esPut es (lowerStr indexName) docId doc

/-- metadata.get of dataType with default unknown, as used by every
per-record path of index-data-lambda.py. -/
def getDataType (m : MetadataItem) : Str := m.dataType.getD (str "unknown")

/-- The index name built by index_s3_object and index_by_id and the bulk
paths of index-data-lambda.py: the literal data- prefix on dataType. -/
def dataIndexName (dataType : Str) : Str := str "data-" ++ dataType

/-- The index name built by index_metadata (DynamoDB-stream path) in
index-data-lambda.py: the literal metadata- prefix on dataType. -/
def metadataIndexName (dataType : Str) : Str := str "metadata-" ++ dataType

/-- The index name under which index_s3_object (event-driven blob indexing)
upserts, including the lowercasing applied inside index_in_elasticsearch. -/
def s3ObjectUpsertIndexName (m : MetadataItem) : Str :=
  lowerStr (dataIndexName (getDataType m))

/-- The index name under which index_metadata (metadata-stream indexing)
upserts, including the lowercasing applied inside index_in_elasticsearch. -/
def metadataStreamUpsertIndexName (m : MetadataItem) : Str :=
  lowerStr (metadataIndexName (getDataType m))

/-- The index name under which index_by_id (on-demand indexing) upserts. -/
def indexByIdUpsertIndexName (m : MetadataItem) : Str :=
  lowerStr (dataIndexName (getDataType m))

/-- The index name under which bulk_index_by_type and reindex_all upsert a
record of the given data type. -/
def bulkUpsertIndexName (dataType : Str) : Str :=
  lowerStr (dataIndexName dataType)

/-- Modelled from the spec: the spec's described index-name normalization,
lower-cased dataType with every non-alphanumeric character collapsed to an
underscore.  Stated only to compare against what the code computes. -/
def specNormalizedIndexName (dataType : Str) : Str :=
  (lowerStr dataType).map (fun c => if c.isAlphanum then c else '_')

theorem lowerStr_append (a b : Str) : lowerStr (a ++ b) = lowerStr a ++ lowerStr b :=
  List.map_append _ a b

/-- C1: the claim as stated is false.  At dataType sales, the metadata-stream
entry point upserts under metadata-sales while the event-driven blob entry
point upserts under data-sales, and neither equals the spec's normalized name
sales. -/
theorem c1_counterexample :
    s3ObjectUpsertIndexName { id := str "x", dataType := some (str "sales") } ≠
      metadataStreamUpsertIndexName { id := str "x", dataType := some (str "sales") } ∧
    s3ObjectUpsertIndexName { id := str "x", dataType := some (str "sales") } ≠
      specNormalizedIndexName (str "sales") := by
  constructor <;> decide

/-- C1 amended: the blob-event, on-demand index-by-id and bulk entry points of
index-data-lambda.py all upsert under the same name, the lowercased data-
prefix on dataType, with no collapsing of non-alphanumerics; the
metadata-stream entry point instead upserts under the lowercased metadata-
prefix on dataType, which always differs from the other three. -/
theorem c1_amended (m : MetadataItem) (dt : Str) (h : m.dataType = some dt) :
    s3ObjectUpsertIndexName m = lowerStr (str "data-" ++ dt) ∧
    indexByIdUpsertIndexName m = s3ObjectUpsertIndexName m ∧
    bulkUpsertIndexName dt = s3ObjectUpsertIndexName m ∧
    metadataStreamUpsertIndexName m = lowerStr (str "metadata-" ++ dt) ∧
    metadataStreamUpsertIndexName m ≠ s3ObjectUpsertIndexName m := by
  refine ⟨?_, rfl, ?_, ?_, ?_⟩
  · simp [s3ObjectUpsertIndexName, dataIndexName, getDataType, h]
  · simp [bulkUpsertIndexName, s3ObjectUpsertIndexName, dataIndexName, getDataType, h]
  · simp [metadataStreamUpsertIndexName, metadataIndexName, getDataType, h]
  · simp only [metadataStreamUpsertIndexName, s3ObjectUpsertIndexName,
      metadataIndexName, dataIndexName, getDataType, h, Option.getD_some,
      lowerStr_append]
    intro heq
    have h1 : Char.toLower 'm' = Char.toLower 'd' := congrArg List.headI heq
    exact absurd h1 (by decide)

/-- C1 amended, witness at a concrete metadata item and data type. -/
theorem c1_amended_witness :
    s3ObjectUpsertIndexName { id := str "x", dataType := some (str "Sales") } =
        lowerStr (str "data-" ++ str "Sales") ∧
    indexByIdUpsertIndexName { id := str "x", dataType := some (str "Sales") } =
        s3ObjectUpsertIndexName { id := str "x", dataType := some (str "Sales") } ∧
    bulkUpsertIndexName (str "Sales") =
        s3ObjectUpsertIndexName { id := str "x", dataType := some (str "Sales") } ∧
    metadataStreamUpsertIndexName { id := str "x", dataType := some (str "Sales") } =
        lowerStr (str "metadata-" ++ str "Sales") ∧
    metadataStreamUpsertIndexName { id := str "x", dataType := some (str "Sales") } ≠
        s3ObjectUpsertIndexName { id := str "x", dataType := some (str "Sales") } :=
  c1_amended { id := str "x", dataType := some (str "Sales") } (str "Sales") rfl

/-! Embedding of the remaining operational parts of index-data-lambda.py. -/

/-- Python exceptions surfaced by the handlers. -/
inductive PyErr where
  | clientError (msg : Str)
  | jsonError
  | keyError (k : Str)
  | indexError
  | valueError (msg : Str)
  deriving DecidableEq, Repr

/-- The s3 scheme marker stripped by the s3Location parsers. -/
def s3Scheme : Str := str "s3://"

/-- Python s3_location.startswith followed by the slice [5:]. -/
def stripScheme (loc : Str) : Str :=
  if s3Scheme.isPrefixOf loc then loc.drop 5 else loc

/-- Python s.split(sep, 1): the part before the first separator, and the rest
after it when the separator occurs. -/
def splitFirst (sep : Char) : Str → Str × Option Str
  | [] => ([], none)
  | c :: rest =>
    if c = sep then ([], some rest)
    else
      let r := splitFirst sep rest
      (c :: r.1, r.2)

/-- The s3Location parse shared by index_by_id, bulk_index_by_type,
reindex_all and get_content: strip the s3 scheme, split on the first slash,
take parts 0 and 1 (accessing parts 1 raises IndexError when absent). -/
def parseS3Location (loc : Str) : Except PyErr (Str × Str) :=
  match splitFirst '/' (stripScheme loc) with
  | (b, some k) => Except.ok (b, k)
  | (_, none) => Except.error PyErr.indexError

/-- Python os.path.basename for the keys used here. -/
def basename (p : Str) : Str :=
  (p.reverse.takeWhile (fun c => c != '/')).reverse

/-- The root part of Python os.path.splitext applied to a file name: split at
the last dot, provided a non-dot character stands before it. -/
def splitextRoot (name : Str) : Str :=
  let afterRev := name.reverse.takeWhile (fun c => c != '.')
  if afterRev.length = name.length then name
  else
    let pre := name.take (name.length - afterRev.length - 1)
    if pre.any (fun c => c != '.') then pre else name

/-- The state touched by index-data-lambda.py: the blob store, the metadata
table and the search index. -/
structure IndexState where
  s3 : S3Store
  table : MetaTable
  es : EsIndex
  deriving DecidableEq, Repr

/-- An API response, reduced to the fields the claims are about. -/
structure ApiResp where
  statusCode : Nat
  success : Bool
  deriving DecidableEq, Repr

/-- The response of bulk_index_by_type. -/
structure BulkResp where
  statusCode : Nat
  success : Bool
  totalItems : Nat
  indexedItems : Nat
  deriving DecidableEq, Repr

/-- The response of reindex_all. -/
structure ReindexResp where
  statusCode : Nat
  success : Bool
  totalItems : Nat
  indexedItems : Nat
  dataTypes : List Str
  deriving DecidableEq, Repr

/-- index_s3_object (index-data-lambda.py, lines 119-174): fetch the blob
(raising ClientError when absent), skip silently when json.loads fails,
derive the document id from the file name, synthesize minimal metadata when
the table has no entry, upsert the merged document, then mark the item
indexed. -/
def index_s3_object (cfg : IndexConfig) (now : Str) (st : IndexState)
    (bucket key : Str) : Except PyErr IndexState :=
  match s3Get st.s3 bucket key with
  | none => Except.error (PyErr.clientError (str "NoSuchKey"))
  | some (BlobVal.rawText _) => Except.ok st
  | some (BlobVal.jsonText d) =>
    let data_id := splitextRoot (basename key)
    let metadata : MetadataItem :=
      match getItem st.table data_id with
      | none => { id := data_id, s3Location := some (s3Scheme ++ bucket ++ ['/'] ++ key) }
      | some m => m
    let index_name := dataIndexName (getDataType metadata)
    Except.ok
      { st with
        es := index_in_elasticsearch cfg st.es index_name data_id (EsDoc.dataDoc metadata d now)
        table := updateIndexed st.table data_id now }

/-- index_metadata (index-data-lambda.py, lines 176-187): upsert the bare
metadata item under the metadata- index for its data type. -/
def index_metadata (cfg : IndexConfig) (st : IndexState) (m : MetadataItem) : IndexState :=
  { st with
    es := index_in_elasticsearch cfg st.es (metadataIndexName (getDataType m)) m.id
            (EsDoc.metaDoc m) }

/-- index_by_id (index-data-lambda.py, lines 189-250): a missing table entry
returns a 404 response; otherwise parse the s3Location, fetch the blob
(ClientError propagates when absent, JSONDecodeError when unparseable),
upsert the merged document and mark the item indexed. -/
def index_by_id (cfg : IndexConfig) (now : Str) (st : IndexState)
    (data_id : Str) : Except PyErr (IndexState × ApiResp) :=
  match getItem st.table data_id with
  | none => Except.ok (st, { statusCode := 404, success := false })
  | some metadata =>
    match metadata.s3Location with
    | none => Except.error (PyErr.keyError (str "s3Location"))
    | some loc =>
      match parseS3Location loc with
      | Except.error e => Except.error e
      | Except.ok (bucket, key) =>
        match s3Get st.s3 bucket key with
        | none => Except.error (PyErr.clientError (str "NoSuchKey"))
        | some (BlobVal.rawText _) => Except.error PyErr.jsonError
        | some (BlobVal.jsonText d) =>
          let index_name := dataIndexName (getDataType metadata)
          Except.ok
            ({ st with
               es := index_in_elasticsearch cfg st.es index_name data_id
                       (EsDoc.dataDoc metadata d now)
               table := updateIndexed st.table data_id now },
             { statusCode := 200, success := true })

/-- The try-guarded loop body shared verbatim by bulk_index_by_type
(lines 266-305) and reindex_all (lines 338-377): parse the s3Location, fetch
and parse the blob, upsert under the data- index for the given type, mark the
item indexed, and count the success; any exception is logged and the loop
continues with the accumulator unchanged apart from state already committed
before the exception (none here, since the first failable step precedes every
write). -/
def indexOneRecord (cfg : IndexConfig) (now : Str) (dataType : Str)
    (acc : IndexState × Nat) (metadata : MetadataItem) : IndexState × Nat :=
  let st := acc.1
  let attempt : Except PyErr IndexState :=
    match metadata.s3Location with
    | none => Except.error (PyErr.keyError (str "s3Location"))
    | some loc =>
      match parseS3Location loc with
      | Except.error e => Except.error e
      | Except.ok (bucket, key) =>
        match s3Get st.s3 bucket key with
        | none => Except.error (PyErr.clientError (str "NoSuchKey"))
        | some (BlobVal.rawText _) => Except.error PyErr.jsonError
        | some (BlobVal.jsonText d) =>
          Except.ok
            { st with
              es := index_in_elasticsearch cfg st.es (dataIndexName dataType) metadata.id
                      (EsDoc.dataDoc metadata d now)
              table := updateIndexed st.table metadata.id now }
  match attempt with
  | Except.ok st2 => (st2, acc.2 + 1)
  | Except.error _ => (st, acc.2)

/-- The DynamoDB scan with FilterExpression dataType equality used by
bulk_index_by_type (an absent dataType attribute never matches). -/
def scanByDataType (table : MetaTable) (dt : Str) : List MetadataItem :=
  table.filter (fun m => m.dataType == some dt)

/-- bulk_index_by_type (index-data-lambda.py, lines 252-315). -/
def bulk_index_by_type (cfg : IndexConfig) (now : Str) (st : IndexState)
    (dt : Str) : IndexState × BulkResp :=
  let items := scanByDataType st.table dt
  let r := items.foldl (indexOneRecord cfg now dt) (st, 0)
  (r.1,
    { statusCode := 200, success := true,
      totalItems := items.length, indexedItems := r.2 })

/-- The Python dict grouping step of reindex_all: append the item to its data
type's group, creating the group at the end on first sight (dict insertion
order). -/
def addToGroups : List (Str × List MetadataItem) → Str → MetadataItem →
    List (Str × List MetadataItem)
  | [], k, m => [(k, [m])]
  | (k', g) :: rest, k, m =>
    if k' = k then (k', g ++ [m]) :: rest
    else (k', g) :: addToGroups rest k m

/-- The data_types dict built by reindex_all (lines 327-332). -/
def groupByDataType (items : List MetadataItem) : List (Str × List MetadataItem) :=
  items.foldl (fun acc m => addToGroups acc (getDataType m) m) []

/-- reindex_all (index-data-lambda.py, lines 317-388): scan everything, group
by data type, run the shared per-record loop over every group. -/
def reindex_all (cfg : IndexConfig) (now : Str) (st : IndexState) :
    IndexState × ReindexResp :=
  let items := st.table
  let groups := groupByDataType items
  let r := groups.foldl (fun acc g => g.2.foldl (indexOneRecord cfg now g.1) acc) (st, 0)
  (r.1,
    { statusCode := 200, success := true,
      totalItems := items.length, indexedItems := r.2,
      dataTypes := groups.map (·.1) })

/-- An item's blob is readable and parseable: its s3Location attribute exists,
parses to a bucket and key, and the store holds JSON content there.  This is
exactly the success condition of the try block in the batch loops. -/
def blobReadable (s3 : S3Store) (m : MetadataItem) : Bool :=
  match m.s3Location with
  | none => false
  | some loc =>
    match parseS3Location loc with
    | Except.error _ => false
    | Except.ok (b, k) =>
      match s3Get s3 b k with
      | some (BlobVal.jsonText _) => true
      | _ => false

theorem indexOneRecord_s3 (cfg : IndexConfig) (now dt : Str)
    (acc : IndexState × Nat) (m : MetadataItem) :
    (indexOneRecord cfg now dt acc m).1.s3 = acc.1.s3 := by
  unfold indexOneRecord
  cases hl : m.s3Location with
  | none => rfl
  | some loc =>
    cases hp : parseS3Location loc with
    | error e => simp [hp]
    | ok bk =>
      obtain ⟨b, k⟩ := bk
      cases hs : s3Get acc.1.s3 b k with
      | none => simp [hp, hs]
      | some bv => cases bv <;> simp [hp, hs]

theorem indexOneRecord_count (cfg : IndexConfig) (now dt : Str)
    (acc : IndexState × Nat) (m : MetadataItem) :
    (indexOneRecord cfg now dt acc m).2 =
      acc.2 + (if blobReadable acc.1.s3 m then 1 else 0) := by
  unfold indexOneRecord blobReadable
  cases hl : m.s3Location with
  | none => rfl
  | some loc =>
    cases hp : parseS3Location loc with
    | error e => simp [hp]
    | ok bk =>
      obtain ⟨b, k⟩ := bk
      cases hs : s3Get acc.1.s3 b k with
      | none => simp [hp, hs]
      | some bv => cases bv <;> simp [hp, hs]

theorem foldl_indexOneRecord (cfg : IndexConfig) (now dt : Str)
    (items : List MetadataItem) (st : IndexState) (n : Nat) :
    (items.foldl (indexOneRecord cfg now dt) (st, n)).2 =
        n + items.countP (blobReadable st.s3) ∧
    (items.foldl (indexOneRecord cfg now dt) (st, n)).1.s3 = st.s3 := by
  induction items generalizing st n with
  | nil => simp
  | cons m rest ih =>
    simp only [List.foldl_cons, List.countP_cons]
    have hs3 := indexOneRecord_s3 cfg now dt (st, n) m
    have hct := indexOneRecord_count cfg now dt (st, n) m
    have hih := ih (indexOneRecord cfg now dt (st, n) m).1
      (indexOneRecord cfg now dt (st, n) m).2
    simp only [Prod.mk.eta] at hih
    dsimp only at hs3 hct hih
    rw [hs3] at hih
    constructor
    · rw [hih.1, hct]
      omega
    · rw [hih.2]

theorem countP_not_eq {α : Type} (p : α → Bool) (l : List α) :
    l.countP (fun a => !p a) = l.length - l.countP p := by
  have h := List.length_eq_countP_add_countP p l
  have he : (fun a => decide ¬p a = true) = fun a => !p a := by
    funext a
    cases hpa : p a <;> simp
  rw [he] at h
  omega

theorem addToGroups_flatten_perm (acc : List (Str × List MetadataItem))
    (k : Str) (m : MetadataItem) :
    ((addToGroups acc k m).map (·.2)).flatten.Perm
      ((acc.map (·.2)).flatten ++ [m]) := by
  induction acc with
  | nil => simp [addToGroups]
  | cons hd rest ih =>
    obtain ⟨k', g⟩ := hd
    by_cases hk : k' = k
    · simp only [addToGroups, if_pos hk, List.map_cons, List.flatten_cons,
        List.append_assoc]
      exact List.Perm.append_left g List.perm_append_comm
    · simp only [addToGroups, if_neg hk, List.map_cons, List.flatten_cons,
        List.append_assoc]
      exact ih.append_left g

theorem groupFold_flatten_perm (items : List MetadataItem)
    (acc : List (Str × List MetadataItem)) :
    (((items.foldl (fun a m => addToGroups a (getDataType m) m) acc).map
        (·.2)).flatten).Perm ((acc.map (·.2)).flatten ++ items) := by
  induction items generalizing acc with
  | nil => simp
  | cons m rest ih =>
    simp only [List.foldl_cons]
    refine (ih _).trans ?_
    have h1 := (addToGroups_flatten_perm acc (getDataType m) m).append_right rest
    refine h1.trans ?_
    simp [List.append_assoc]

theorem groupByDataType_flatten_perm (items : List MetadataItem) :
    ((groupByDataType items).map (·.2)).flatten.Perm items := by
  have h := groupFold_flatten_perm items []
  simpa [groupByDataType] using h

theorem foldl_groups_count (cfg : IndexConfig) (now : Str)
    (groups : List (Str × List MetadataItem)) (st : IndexState) (n : Nat) :
    (groups.foldl (fun acc g => g.2.foldl (indexOneRecord cfg now g.1) acc)
        (st, n)).2 =
      n + ((groups.map (·.2)).flatten.countP (blobReadable st.s3)) ∧
    (groups.foldl (fun acc g => g.2.foldl (indexOneRecord cfg now g.1) acc)
        (st, n)).1.s3 = st.s3 := by
  induction groups generalizing st n with
  | nil => simp
  | cons g rest ih =>
    simp only [List.foldl_cons, List.map_cons, List.flatten_cons,
      List.countP_append]
    have hin := foldl_indexOneRecord cfg now g.1 g.2 st n
    have hih := ih (g.2.foldl (indexOneRecord cfg now g.1) (st, n)).1
      (g.2.foldl (indexOneRecord cfg now g.1) (st, n)).2
    simp only [Prod.mk.eta] at hih
    rw [hin.2] at hih
    constructor
    · rw [hih.1, hin.1]
      omega
    · rw [hih.2]

/-- C2: a batch indexing run over the N records selected by the scan, of
which M have an unreadable or unparseable blob (missing s3Location, malformed
location, missing object, or non-JSON content), returns an overall success
with totalItems N and indexedItems N - M, for both bulk_index_by_type and
reindex_all; per-record failures never abort the batch. -/
theorem c2_batch_partial_failure (cfg : IndexConfig) (now : Str)
    (st : IndexState) (dt : Str) :
    (bulk_index_by_type cfg now st dt).2.statusCode = 200 ∧
    (bulk_index_by_type cfg now st dt).2.success = true ∧
    (bulk_index_by_type cfg now st dt).2.totalItems =
      (scanByDataType st.table dt).length ∧
    (bulk_index_by_type cfg now st dt).2.indexedItems =
      (scanByDataType st.table dt).length -
        (scanByDataType st.table dt).countP (fun m => !(blobReadable st.s3 m)) ∧
    (reindex_all cfg now st).2.statusCode = 200 ∧
    (reindex_all cfg now st).2.success = true ∧
    (reindex_all cfg now st).2.totalItems = st.table.length ∧
    (reindex_all cfg now st).2.indexedItems =
      st.table.length - st.table.countP (fun m => !(blobReadable st.s3 m)) := by
  refine ⟨rfl, rfl, rfl, ?_, rfl, rfl, rfl, ?_⟩
  · show (List.foldl (indexOneRecord cfg now dt) (st, 0)
        (scanByDataType st.table dt)).2 = _
    rw [(foldl_indexOneRecord cfg now dt (scanByDataType st.table dt) st 0).1,
      countP_not_eq]
    have hle := @List.countP_le_length _ (blobReadable st.s3)
      (scanByDataType st.table dt)
    omega
  · show (List.foldl
        (fun acc g => g.2.foldl (indexOneRecord cfg now g.1) acc) (st, 0)
        (groupByDataType st.table)).2 = _
    rw [(foldl_groups_count cfg now (groupByDataType st.table) st 0).1]
    rw [(groupByDataType_flatten_perm st.table).countP_eq (blobReadable st.s3)]
    rw [countP_not_eq]
    have hle := @List.countP_le_length _ (blobReadable st.s3) st.table
    omega

/-- C3: the claim as stated is false for the on-demand path.  With an empty
metadata table, index_by_id on id x does not synthesize metadata: it returns
a 404 not-found response and leaves the whole state (in particular the search
index) untouched. -/
theorem c3_counterexample :
    index_by_id { esEndpoint := some (str "es") } (str "t0")
        { s3 := [], table := [], es := [] } (str "x") =
      Except.ok ({ s3 := [], table := [], es := [] },
        { statusCode := 404, success := false }) := by
  rfl

/-- C3 amended: only the event-driven blob path synthesizes minimal metadata
(id plus blob location) when the Metadata Table has no entry, and proceeds to
index under the data-unknown index; the on-demand index-by-id path instead
returns a 404 not-found response without indexing. -/
theorem c3_amended (cfg : IndexConfig) (now : Str) (st : IndexState)
    (bucket key d i2 : Str)
    (hs3 : s3Get st.s3 bucket key = some (BlobVal.jsonText d))
    (hmeta : getItem st.table (splitextRoot (basename key)) = none)
    (hmeta2 : getItem st.table i2 = none) :
    index_s3_object cfg now st bucket key =
      Except.ok
        { st with
          es := index_in_elasticsearch cfg st.es
              (dataIndexName (str "unknown")) (splitextRoot (basename key))
              (EsDoc.dataDoc
                { id := splitextRoot (basename key),
                  s3Location := some (s3Scheme ++ bucket ++ ['/'] ++ key) } d now)
          table := updateIndexed st.table (splitextRoot (basename key)) now } ∧
    index_by_id cfg now st i2 =
      Except.ok (st, { statusCode := 404, success := false }) := by
  constructor
  · simp only [index_s3_object, hs3, hmeta]
    rfl
  · simp only [index_by_id, hmeta2]

/-- C3 amended, witness: a one-blob store, an empty table, id y absent. -/
theorem c3_amended_witness :
    index_s3_object { esEndpoint := some (str "es") } (str "t0")
        { s3 := [((str "b", str "data/x.json"), BlobVal.jsonText (str "doc"))],
          table := [], es := [] } (str "b") (str "data/x.json") =
      Except.ok
        { s3 := [((str "b", str "data/x.json"), BlobVal.jsonText (str "doc"))],
          es := index_in_elasticsearch { esEndpoint := some (str "es") } []
              (dataIndexName (str "unknown"))
              (splitextRoot (basename (str "data/x.json")))
              (EsDoc.dataDoc
                { id := splitextRoot (basename (str "data/x.json")),
                  s3Location :=
                    some (s3Scheme ++ str "b" ++ ['/'] ++ str "data/x.json") }
                (str "doc") (str "t0"))
          table :=
            updateIndexed [] (splitextRoot (basename (str "data/x.json")))
              (str "t0") } ∧
    index_by_id { esEndpoint := some (str "es") } (str "t0")
        { s3 := [((str "b", str "data/x.json"), BlobVal.jsonText (str "doc"))],
          table := [], es := [] } (str "y") =
      Except.ok
        ({ s3 := [((str "b", str "data/x.json"), BlobVal.jsonText (str "doc"))],
           table := [], es := [] },
         { statusCode := 404, success := false }) :=
  c3_amended _ _ _ _ _ _ _ (by decide) (by decide) (by decide)

/-! Embedding of ingest-data-lambda.py. -/

/-- Configuration read from the environment by ingest-data-lambda.py. -/
structure IngestConfig where
  s3Bucket : Str
  deriving DecidableEq, Repr

/-- The side effects an ingest invocation issues against the collaborators,
in issue order. -/
inductive IngestEff where
  | s3PutEff (bucket key : Str) (v : BlobVal)
  | ddbPutEff (item : MetadataItem)
  deriving DecidableEq, Repr

/-- generate_sample_data (ingest-data-lambda.py, lines 135-180), whose
concrete content is a demo affordance: modelled as an opaque document
determined by the data type. -/
def generate_sample_data (dataType : Str) : Str := str "sample:" ++ dataType

/-- body.get of dataType with default unknown (line 54). -/
def ingestDataType (body : Option Str) : Str := body.getD (str "unknown")

/-- The document stored at ingest: the provided data, or generated sample
data when the body carries none (lines 59-65). -/
def ingestDoc (dataType? data? : Option Str) : Str :=
  match data? with
  | some d => d
  | none => generate_sample_data (ingestDataType dataType?)

/-- The blob key data_type/timestamp-date/data_id.json (line 68). -/
def ingestKey (data_id timestamp : Str) (dataType? : Option Str) : Str :=
  ingestDataType dataType? ++ ['/'] ++ timestamp.take 10 ++ ['/'] ++ data_id ++ str ".json"

/-- The s3Location string stored in the metadata entry (lines 85, 111). -/
def ingestLoc (cfg : IngestConfig) (data_id timestamp : Str)
    (dataType? : Option Str) : Str :=
  s3Scheme ++ cfg.s3Bucket ++ ['/'] ++ ingestKey data_id timestamp dataType?

/-- The request body fields ingest reads (lines 54-94). -/
structure IngestBody where
  dataType : Option Str := none
  source : Option Str := none
  owner : Option Str := none
  data : Option Str := none
  tags : Option (List Str) := none
  description : Option Str := none
  deriving DecidableEq, Repr

/-- The metadata item written by ingest (lines 79-94); sizeBytes abstracts
len of the serialized content by the stand-in document's length. -/
def ingestItem (cfg : IngestConfig) (data_id timestamp : Str)
    (body : IngestBody) : MetadataItem :=
  { id := data_id
    timestamp := some timestamp
    dataType := some (ingestDataType body.dataType)
    source := some (body.source.getD (str "api"))
    owner := some (body.owner.getD (str "system"))
    s3Location := some (ingestLoc cfg data_id timestamp body.dataType)
    sizeBytes := some (ingestDoc body.dataType body.data).length
    status := some (str "ingested")
    tags := body.tags
    description := body.description }

/-- The response body of a successful ingest. -/
structure IngestResp where
  statusCode : Nat
  success : Bool
  dataId : Str
  s3Location : Str
  deriving DecidableEq, Repr

/-- lambda_handler of ingest-data-lambda.py (lines 25-114): generate an id
and timestamp (passed in, since uuid4 and now are environment inputs), put
the payload blob, then put the metadata item, and return the id and
location.  The returned effect list is in program order. -/
def ingest_handler (cfg : IngestConfig) (data_id timestamp : Str)
    (body : IngestBody) : List IngestEff × IngestResp :=
  ([IngestEff.s3PutEff cfg.s3Bucket (ingestKey data_id timestamp body.dataType)
      (BlobVal.jsonText (ingestDoc body.dataType body.data)),
    IngestEff.ddbPutEff (ingestItem cfg data_id timestamp body)],
   { statusCode := 200, success := true, dataId := data_id,
     s3Location := ingestLoc cfg data_id timestamp body.dataType })

theorem mem_take_pair {α : Type} (a b : α) (n : Nat)
    (h : b ∈ ([a, b].take n)) (hne : b ≠ a) : a ∈ ([a, b].take n) := by
  match n with
  | 0 => simp at h
  | 1 =>
    simp only [List.take_succ_cons, List.take_zero, List.mem_singleton] at h
    exact absurd h hne
  | (k + 2) =>
    simp [List.take_succ_cons]

/-- C5: every ingest invocation issues exactly two effects, the payload write
to the Blob Store strictly before the metadata write, the written metadata
entry references exactly the bucket and key just written, and in every
prefix of the effect trace (every reachable state) a metadata write is
preceded by the payload write it references. -/
theorem c5_payload_write_before_metadata (cfg : IngestConfig)
    (data_id timestamp : Str) (body : IngestBody) :
    (ingest_handler cfg data_id timestamp body).1 =
      [IngestEff.s3PutEff cfg.s3Bucket (ingestKey data_id timestamp body.dataType)
          (BlobVal.jsonText (ingestDoc body.dataType body.data)),
       IngestEff.ddbPutEff (ingestItem cfg data_id timestamp body)] ∧
    (ingestItem cfg data_id timestamp body).s3Location =
      some (s3Scheme ++ cfg.s3Bucket ++ ['/'] ++
        ingestKey data_id timestamp body.dataType) ∧
    ∀ n : Nat,
      IngestEff.ddbPutEff (ingestItem cfg data_id timestamp body) ∈
          ((ingest_handler cfg data_id timestamp body).1.take n) →
        IngestEff.s3PutEff cfg.s3Bucket (ingestKey data_id timestamp body.dataType)
            (BlobVal.jsonText (ingestDoc body.dataType body.data)) ∈
          ((ingest_handler cfg data_id timestamp body).1.take n) := by
  refine ⟨rfl, rfl, ?_⟩
  intro n hn
  exact mem_take_pair _ _ n hn (by simp)

/-! Embedding of query-data-lambda.py. -/

/-- Bytewise lexicographic order on strings, the order DynamoDB applies to
string attributes in a between condition. -/
def strLe : Str → Str → Bool
  | [], _ => true
  | _ :: _, [] => false
  | a :: as, b :: bs =>
    if a < b then true
    else if a = b then strLe as bs
    else false

/-- The query criteria keys recognized by search_metadata (lines 119-145). -/
structure QueryCriteria where
  dataType : Option Str := none
  owner : Option Str := none
  source : Option Str := none
  fromDate : Option Str := none
  toDate : Option Str := none
  tags : Option (List Str) := none
  deriving DecidableEq, Repr

/-- Attr dataType equality condition (an absent attribute never matches). -/
def dataTypeCond (v : Str) (m : MetadataItem) : Bool := m.dataType == some v

/-- Attr owner equality condition. -/
def ownerCond (v : Str) (m : MetadataItem) : Bool := m.owner == some v

/-- Attr source equality condition. -/
def sourceCond (v : Str) (m : MetadataItem) : Bool := m.source == some v

/-- Attr timestamp between condition, inclusive at both ends. -/
def dateCond (a b : Str) (m : MetadataItem) : Bool :=
  match m.timestamp with
  | some t => strLe a t && strLe t b
  | none => false

/-- Attr tags contains condition: the tags attribute exists and holds the
operand. -/
def tagCond (tag : Str) (m : MetadataItem) : Bool :=
  match m.tags with
  | some ts => ts.contains tag
  | none => false

/-- The accumulation pattern of search_metadata: expr if acc is None else
acc & expr. -/
def addCond (acc : Option (MetadataItem → Bool)) (c : MetadataItem → Bool) :
    Option (MetadataItem → Bool) :=
  match acc with
  | none => some c
  | some f => some (fun m => f m && c m)

/-- The filter expression built by search_metadata (lines 124-145), composed
in the source's order: dataType, owner, source, date range (only when both
bounds are present), then one contains condition per requested tag. -/
def buildFilter (q : QueryCriteria) : Option (MetadataItem → Bool) :=
  let f0 : Option (MetadataItem → Bool) :=
    match q.dataType with
    | none => none
    | some v => some (dataTypeCond v)
  let f1 :=
    match q.owner with
    | none => f0
    | some v => addCond f0 (ownerCond v)
  let f2 :=
    match q.source with
    | none => f1
    | some v => addCond f1 (sourceCond v)
  let f3 :=
    match q.fromDate, q.toDate with
    | some a, some b => addCond f2 (dateCond a b)
    | _, _ => f2
  match q.tags with
  | none => f3
  | some ts => ts.foldl (fun acc tag => addCond acc (tagCond tag)) f3

/-- The response of search_metadata. -/
structure SearchResp where
  success : Bool
  count : Nat
  items : List MetadataItem
  deriving DecidableEq, Repr

/-- search_metadata (query-data-lambda.py, lines 119-158): scan with the
built filter when any criterion was provided, otherwise a scan limited to
the first 20 items. -/
def search_metadata (table : MetaTable) (q : QueryCriteria) : SearchResp :=
  match buildFilter q with
  | some f =>
    let its := table.filter f
    { success := true, count := its.length, items := its }
  | none =>
    let its := table.take 20
    { success := true, count := its.length, items := its }

/-- Truth of an optional filter expression on an item (no filter accepts). -/
def satisfies (o : Option (MetadataItem → Bool)) (m : MetadataItem) : Bool :=
  match o with
  | none => true
  | some f => f m

theorem satisfies_none (m : MetadataItem) : satisfies none m = true := rfl

theorem satisfies_some (f : MetadataItem → Bool) (m : MetadataItem) :
    satisfies (some f) m = f m := rfl

theorem satisfies_addCond (acc : Option (MetadataItem → Bool))
    (c : MetadataItem → Bool) (m : MetadataItem) :
    satisfies (addCond acc c) m = (satisfies acc m && c m) := by
  cases acc with
  | none => simp [satisfies, addCond]
  | some f => rfl

theorem satisfies_tags_foldl (ts : List Str)
    (acc : Option (MetadataItem → Bool)) (m : MetadataItem) :
    satisfies (ts.foldl (fun a tag => addCond a (tagCond tag)) acc) m =
      (satisfies acc m && ts.all (fun tag => tagCond tag m)) := by
  induction ts generalizing acc with
  | nil => simp
  | cons t ts ih =>
    simp only [List.foldl_cons, List.all_cons]
    rw [ih, satisfies_addCond, Bool.and_assoc]

/-- The conjunction of all provided criteria, stated criterion by criterion. -/
def criteriaMatch (q : QueryCriteria) (m : MetadataItem) : Bool :=
  (match q.dataType with | none => true | some v => dataTypeCond v m) &&
  (match q.owner with | none => true | some v => ownerCond v m) &&
  (match q.source with | none => true | some v => sourceCond v m) &&
  (match q.fromDate, q.toDate with
   | some a, some b => dateCond a b m
   | _, _ => true) &&
  (match q.tags with
   | none => true
   | some ts => ts.all (fun tag => tagCond tag m))

theorem satisfies_buildFilter (q : QueryCriteria) (m : MetadataItem) :
    satisfies (buildFilter q) m = criteriaMatch q m := by
  unfold buildFilter criteriaMatch
  rcases q with ⟨dt, ow, so, fd, td, tg⟩
  dsimp only
  cases tg with
  | none =>
    cases dt <;> cases ow <;> cases so <;> cases fd <;> cases td <;>
      simp [satisfies_addCond, satisfies_none, satisfies_some, Bool.and_assoc]
  | some ts =>
    rw [satisfies_tags_foldl]
    cases dt <;> cases ow <;> cases so <;> cases fd <;> cases td <;>
      simp [satisfies_addCond, satisfies_none, satisfies_some, Bool.and_assoc]

theorem tagsFoldl_isSome (ts : List Str) (f : MetadataItem → Bool) :
    (ts.foldl (fun a tag => addCond a (tagCond tag)) (some f)).isSome = true := by
  induction ts generalizing f with
  | nil => rfl
  | cons t ts ih => exact ih _

theorem tagsFoldl_cons_isSome (t : Str) (ts : List Str)
    (f3 : Option (MetadataItem → Bool)) :
    ((t :: ts).foldl (fun a tag => addCond a (tagCond tag)) f3).isSome = true := by
  simp only [List.foldl_cons]
  cases f3 with
  | none => exact tagsFoldl_isSome ts _
  | some f => exact tagsFoldl_isSome ts _

theorem buildFilter_eq_none (q : QueryCriteria) (h : buildFilter q = none) :
    q.dataType = none ∧ q.owner = none ∧ q.source = none ∧
    (q.fromDate = none ∨ q.toDate = none) ∧
    (q.tags = none ∨ q.tags = some []) := by
  rcases q with ⟨dt, ow, so, fd, td, tg⟩
  unfold buildFilter at h
  dsimp only at h
  rcases tg with _ | ⟨_ | ⟨t, ts⟩⟩
  · cases dt <;> cases ow <;> cases so <;> cases fd <;> cases td <;>
      simp [addCond] at h <;> simp
  · cases dt <;> cases ow <;> cases so <;> cases fd <;> cases td <;>
      simp [addCond] at h <;> simp
  · exfalso
    have h2 := congrArg Option.isSome h
    rw [tagsFoldl_cons_isSome] at h2
    simp at h2

/-- C4: every record returned by search_metadata comes from the table and
satisfies every provided criterion: dataType, owner and source by equality,
the creation-timestamp range inclusively when both bounds are provided, and
containment of every requested tag; absent criteria impose nothing beyond
membership. -/
theorem c4_queryByFilter_soundness (table : MetaTable) (q : QueryCriteria)
    (m : MetadataItem) (hm : m ∈ (search_metadata table q).items) :
    m ∈ table ∧
    (∀ v, q.dataType = some v → m.dataType = some v) ∧
    (∀ v, q.owner = some v → m.owner = some v) ∧
    (∀ v, q.source = some v → m.source = some v) ∧
    (∀ a b, q.fromDate = some a → q.toDate = some b →
      ∃ t, m.timestamp = some t ∧ strLe a t = true ∧ strLe t b = true) ∧
    (∀ ts tag, q.tags = some ts → tag ∈ ts →
      ∃ mts, m.tags = some mts ∧ tag ∈ mts) := by
  unfold search_metadata at hm
  cases hf : buildFilter q with
  | none =>
    rw [hf] at hm
    obtain ⟨hdt, how, hso, hdate, htags⟩ := buildFilter_eq_none q hf
    refine ⟨List.mem_of_mem_take hm, ?_, ?_, ?_, ?_, ?_⟩
    · intro v hv; rw [hdt] at hv; cases hv
    · intro v hv; rw [how] at hv; cases hv
    · intro v hv; rw [hso] at hv; cases hv
    · intro a b ha hb
      rcases hdate with h | h
      · rw [h] at ha; cases ha
      · rw [h] at hb; cases hb
    · intro ts tag hts htag
      rcases htags with h | h
      · rw [h] at hts; cases hts
      · rw [h] at hts
        cases hts
        cases htag
  | some f =>
    rw [hf] at hm
    rw [List.mem_filter] at hm
    obtain ⟨hmem, hfm⟩ := hm
    have hc : criteriaMatch q m = true := by
      rw [← satisfies_buildFilter, hf]
      exact hfm
    unfold criteriaMatch at hc
    simp only [Bool.and_eq_true] at hc
    obtain ⟨⟨⟨⟨h1, h2⟩, h3⟩, h4⟩, h5⟩ := hc
    refine ⟨hmem, ?_, ?_, ?_, ?_, ?_⟩
    · intro v hv
      rw [hv] at h1
      exact eq_of_beq (by simpa [dataTypeCond] using h1)
    · intro v hv
      rw [hv] at h2
      exact eq_of_beq (by simpa [ownerCond] using h2)
    · intro v hv
      rw [hv] at h3
      exact eq_of_beq (by simpa [sourceCond] using h3)
    · intro a b ha hb
      rw [ha, hb] at h4
      unfold dateCond at h4
      cases ht : m.timestamp with
      | none => rw [ht] at h4; cases h4
      | some t =>
        rw [ht] at h4
        rw [Bool.and_eq_true] at h4
        exact ⟨t, rfl, h4.1, h4.2⟩
    · intro ts tag hts htag
      rw [hts] at h5
      rw [List.all_eq_true] at h5
      have := h5 tag htag
      unfold tagCond at this
      cases hmt : m.tags with
      | none => rw [hmt] at this; cases this
      | some mts =>
        rw [hmt] at this
        exact ⟨mts, rfl, by simpa using this⟩

/-- C4 witness data: a one-item table, a criteria mapping providing every
recognized key, and the item that matches all of them. -/
def c4WItem : MetadataItem :=
  { id := str "i", dataType := some (str "s"), owner := some (str "o"),
    source := some (str "a"), timestamp := some (str "2"),
    tags := some [str "t"] }

def c4WTable : MetaTable := [c4WItem]

def c4WCriteria : QueryCriteria :=
  { dataType := some (str "s"), owner := some (str "o"),
    source := some (str "a"), fromDate := some (str "1"),
    toDate := some (str "3"), tags := some [str "t"] }

/-- C4, witness at concrete criteria exercising all recognized keys. -/
theorem c4_queryByFilter_soundness_witness :
    c4WItem ∈ c4WTable ∧
    (∀ v, c4WCriteria.dataType = some v → c4WItem.dataType = some v) ∧
    (∀ v, c4WCriteria.owner = some v → c4WItem.owner = some v) ∧
    (∀ v, c4WCriteria.source = some v → c4WItem.source = some v) ∧
    (∀ a b, c4WCriteria.fromDate = some a → c4WCriteria.toDate = some b →
      ∃ t, c4WItem.timestamp = some t ∧ strLe a t = true ∧ strLe t b = true) ∧
    (∀ ts tag, c4WCriteria.tags = some ts → tag ∈ ts →
      ∃ mts, c4WItem.tags = some mts ∧ tag ∈ mts) :=
  c4_queryByFilter_soundness c4WTable c4WCriteria c4WItem (by decide)

/-- The result dict of query_by_id. -/
structure QueryByIdResult where
  success : Bool
  metadata : Option MetadataItem
  deriving DecidableEq, Repr

/-- query_by_id (query-data-lambda.py, lines 101-117): a falsy id raises
ValueError; an absent item is the normal non-error result with success
false. -/
def query_by_id (table : MetaTable) (data_id? : Option Str) :
    Except PyErr QueryByIdResult :=
  match data_id? with
  | none => Except.error (PyErr.valueError (str "ID parameter is required"))
  | some data_id =>
    if data_id = [] then
      Except.error (PyErr.valueError (str "ID parameter is required"))
    else
      match getItem table data_id with
      | none => Except.ok { success := false, metadata := none }
      | some m => Except.ok { success := true, metadata := some m }

/-- The result dict of get_content. -/
structure GetContentResult where
  success : Bool
  metadata : Option MetadataItem
  content : Option Str
  deriving DecidableEq, Repr

/-- get_content (query-data-lambda.py, lines 160-193): an absent metadata
item is the normal success-false result, but an absent blob makes get_object
raise ClientError, and unparseable content makes json.loads raise; neither
is caught inside get_content. -/
def get_content (s3 : S3Store) (table : MetaTable) (data_id? : Option Str) :
    Except PyErr GetContentResult :=
  match data_id? with
  | none => Except.error (PyErr.valueError (str "ID parameter is required"))
  | some data_id =>
    if data_id = [] then
      Except.error (PyErr.valueError (str "ID parameter is required"))
    else
      match getItem table data_id with
      | none => Except.ok { success := false, metadata := none, content := none }
      | some metadata =>
        match metadata.s3Location with
        | none => Except.error (PyErr.keyError (str "s3Location"))
        | some loc =>
          match parseS3Location loc with
          | Except.error e => Except.error e
          | Except.ok (bucket, key) =>
            match s3Get s3 bucket key with
            | none => Except.error (PyErr.clientError (str "NoSuchKey"))
            | some (BlobVal.rawText _) => Except.error PyErr.jsonError
            | some (BlobVal.jsonText d) =>
              Except.ok
                { success := true, metadata := some metadata, content := some d }

/-- An HTTP response reduced to its status code and whether the JSON body
carries success true. -/
structure HttpResp where
  statusCode : Nat
  bodySuccess : Bool
  deriving DecidableEq, Repr

/-- The lambda_handler wrapping (query-data-lambda.py, lines 25-99) around an
id query: a normal result is returned with status 200 and the result's own
success flag; any raised error is caught and returned as a 500 failure. -/
def query_handler_id (table : MetaTable) (data_id? : Option Str) : HttpResp :=
  match query_by_id table data_id? with
  | Except.ok r => { statusCode := 200, bodySuccess := r.success }
  | Except.error _ => { statusCode := 500, bodySuccess := false }

/-- The lambda_handler wrapping around a content query. -/
def query_handler_content (s3 : S3Store) (table : MetaTable)
    (data_id? : Option Str) : HttpResp :=
  match get_content s3 table data_id? with
  | Except.ok r => { statusCode := 200, bodySuccess := r.success }
  | Except.error _ => { statusCode := 500, bodySuccess := false }

/-- C8: the claim as stated is false for the blob-absent stage.  With a
metadata item whose s3Location points at a key the blob store does not hold,
get_content raises ClientError and the handler answers with a 500 error
response, not the normal success-false result. -/
theorem c8_counterexample :
    get_content []
        [{ id := str "x", s3Location := some (str "s3://b/k") }]
        (some (str "x")) =
      Except.error (PyErr.clientError (str "NoSuchKey")) ∧
    query_handler_content []
        [{ id := str "x", s3Location := some (str "s3://b/k") }]
        (some (str "x")) =
      { statusCode := 500, bodySuccess := false } := by
  exact ⟨rfl, rfl⟩

/-- C8 amended: query_by_id with an id absent from the table returns the
normal non-error success-false result (status 200), and get_content does so
when the metadata is absent; but when the metadata exists and the referenced
blob is absent, get_content raises ClientError and the handler returns a 500
error response. -/
theorem c8_amended (s3 : S3Store) (table : MetaTable) (i j : Str)
    (mj : MetadataItem) (loc b k : Str)
    (hi : i ≠ [])
    (hjne : j ≠ [])
    (habs : getItem table i = none)
    (hj : getItem table j = some mj)
    (hjloc : mj.s3Location = some loc)
    (hjparse : parseS3Location loc = Except.ok (b, k))
    (hjabs : s3Get s3 b k = none) :
    query_by_id table (some i) =
      Except.ok { success := false, metadata := none } ∧
    query_handler_id table (some i) =
      { statusCode := 200, bodySuccess := false } ∧
    get_content s3 table (some i) =
      Except.ok { success := false, metadata := none, content := none } ∧
    query_handler_content s3 table (some i) =
      { statusCode := 200, bodySuccess := false } ∧
    get_content s3 table (some j) =
      Except.error (PyErr.clientError (str "NoSuchKey")) ∧
    query_handler_content s3 table (some j) =
      { statusCode := 500, bodySuccess := false } := by
  have hq : query_by_id table (some i) =
      Except.ok { success := false, metadata := none } := by
    simp only [query_by_id, if_neg hi, habs]
  have hg : get_content s3 table (some i) =
      Except.ok { success := false, metadata := none, content := none } := by
    simp only [get_content, if_neg hi, habs]
  have hgj : get_content s3 table (some j) =
      Except.error (PyErr.clientError (str "NoSuchKey")) := by
    simp only [get_content, if_neg hjne, hj, hjloc, hjparse, hjabs]
  refine ⟨hq, ?_, hg, ?_, hgj, ?_⟩
  · simp only [query_handler_id, hq]
  · simp only [query_handler_content, hg]
  · simp only [query_handler_content, hgj]

/-- C8 amended, witness: id y absent, id x present but its blob missing. -/
theorem c8_amended_witness :
    query_by_id [{ id := str "x", s3Location := some (str "s3://b/k") }]
        (some (str "y")) =
      Except.ok { success := false, metadata := none } ∧
    query_handler_id [{ id := str "x", s3Location := some (str "s3://b/k") }]
        (some (str "y")) =
      { statusCode := 200, bodySuccess := false } ∧
    get_content [] [{ id := str "x", s3Location := some (str "s3://b/k") }]
        (some (str "y")) =
      Except.ok { success := false, metadata := none, content := none } ∧
    query_handler_content []
        [{ id := str "x", s3Location := some (str "s3://b/k") }]
        (some (str "y")) =
      { statusCode := 200, bodySuccess := false } ∧
    get_content [] [{ id := str "x", s3Location := some (str "s3://b/k") }]
        (some (str "x")) =
      Except.error (PyErr.clientError (str "NoSuchKey")) ∧
    query_handler_content []
        [{ id := str "x", s3Location := some (str "s3://b/k") }]
        (some (str "x")) =
      { statusCode := 500, bodySuccess := false } :=
  c8_amended [] [{ id := str "x", s3Location := some (str "s3://b/k") }]
    (str "y") (str "x") { id := str "x", s3Location := some (str "s3://b/k") }
    (str "s3://b/k") (str "b") (str "k")
    (by decide) (by decide) (by decide) (by decide) (by decide) rfl
    (by decide)

/-! The round trip from the s3Location written at ingest back to the bucket
and key read by the content-retrieval and index-by-id paths (claim C10). -/

theorem stripScheme_append (rest : Str) :
    stripScheme (s3Scheme ++ rest) = rest := by
  unfold stripScheme
  rw [if_pos]
  · have h5 : s3Scheme.length = 5 := rfl
    rw [← h5, List.drop_left]
  · rw [List.isPrefixOf_iff_prefix]
    exact List.prefix_append s3Scheme rest

theorem splitFirst_slash_append (b k : Str) (hb : ('/' : Char) ∉ b) :
    splitFirst '/' (b ++ '/' :: k) = (b, some k) := by
  induction b with
  | nil => simp [splitFirst]
  | cons c cs ih =>
    have hc : ¬ (c = '/') := fun h => hb (h ▸ List.mem_cons_self c cs)
    have hcs : ('/' : Char) ∉ cs := fun h => hb (List.mem_cons_of_mem c h)
    simp only [List.cons_append, splitFirst, if_neg hc, List.append_eq, ih hcs]

theorem parseS3Location_roundtrip (b k : Str) (hb : ('/' : Char) ∉ b) :
    parseS3Location (s3Scheme ++ b ++ ['/'] ++ k) = Except.ok (b, k) := by
  unfold parseS3Location
  have he : s3Scheme ++ b ++ ['/'] ++ k = s3Scheme ++ (b ++ '/' :: k) := by
    simp [List.append_assoc]
  rw [he, stripScheme_append, splitFirst_slash_append b k hb]

theorem s3Get_s3Put (s3 : S3Store) (b k : Str) (v : BlobVal) :
    s3Get (s3Put s3 b k v) b k = some v := by
  unfold s3Get s3Put
  simp [List.find?_cons]

theorem getItem_putItem_fresh (table : MetaTable) (it : MetadataItem)
    (h : table.any (fun m => m.id == it.id) = false) :
    getItem (putItem table it) it.id = some it := by
  unfold getItem putItem
  rw [if_neg (by simp [h])]
  rw [List.find?_append]
  have h1 : table.find? (fun m => m.id == it.id) = none := by
    rw [List.find?_eq_none]
    intro x hx
    exact (List.any_eq_false.mp h) x hx
  rw [h1]
  simp [List.find?_cons]

/-- The interpretation of an ingest effect trace against the shared state:
payload writes land in the blob store, metadata writes in the table. -/
def applyIngestEffects (st : IndexState) (effs : List IngestEff) : IndexState :=
  effs.foldl
    (fun s e =>
      match e with
      | IngestEff.s3PutEff b k v => { s with s3 := s3Put s.s3 b k v }
      | IngestEff.ddbPutEff item => { s with table := putItem s.table item })
    st

/-- C10: after an ingest whose effects are applied to the shared state, the
stored s3Location string parses back (strip the scheme, split on the first
slash) to exactly the bucket and key ingest wrote; consequently get_content
on the new id returns the ingested document, and index_by_id fetches that
same blob and indexes the merged document built from it.  Bucket names never
contain a slash, which S3 guarantees. -/
theorem c10_location_roundtrip (cfg : IngestConfig) (icfg : IndexConfig)
    (data_id timestamp now : Str) (body : IngestBody) (st : IndexState)
    (hb : ('/' : Char) ∉ cfg.s3Bucket)
    (hid : data_id ≠ [])
    (hfresh : st.table.any (fun m => m.id == data_id) = false) :
    parseS3Location (ingestLoc cfg data_id timestamp body.dataType) =
      Except.ok (cfg.s3Bucket, ingestKey data_id timestamp body.dataType) ∧
    s3Get (applyIngestEffects st (ingest_handler cfg data_id timestamp body).1).s3
        cfg.s3Bucket (ingestKey data_id timestamp body.dataType) =
      some (BlobVal.jsonText (ingestDoc body.dataType body.data)) ∧
    get_content
        (applyIngestEffects st (ingest_handler cfg data_id timestamp body).1).s3
        (applyIngestEffects st (ingest_handler cfg data_id timestamp body).1).table
        (some data_id) =
      Except.ok
        { success := true,
          metadata := some (ingestItem cfg data_id timestamp body),
          content := some (ingestDoc body.dataType body.data) } ∧
    index_by_id icfg now
        (applyIngestEffects st (ingest_handler cfg data_id timestamp body).1)
        data_id =
      Except.ok
        ({ applyIngestEffects st (ingest_handler cfg data_id timestamp body).1 with
            es := index_in_elasticsearch icfg
                (applyIngestEffects st (ingest_handler cfg data_id timestamp body).1).es
                (dataIndexName (ingestDataType body.dataType)) data_id
                (EsDoc.dataDoc (ingestItem cfg data_id timestamp body)
                  (ingestDoc body.dataType body.data) now)
            table := updateIndexed
                (applyIngestEffects st (ingest_handler cfg data_id timestamp body).1).table
                data_id now },
         { statusCode := 200, success := true }) := by
  have hparse : parseS3Location (ingestLoc cfg data_id timestamp body.dataType) =
      Except.ok (cfg.s3Bucket, ingestKey data_id timestamp body.dataType) := by
    unfold ingestLoc
    exact parseS3Location_roundtrip _ _ hb
  have hst : applyIngestEffects st (ingest_handler cfg data_id timestamp body).1 =
      { st with
        s3 := s3Put st.s3 cfg.s3Bucket (ingestKey data_id timestamp body.dataType)
          (BlobVal.jsonText (ingestDoc body.dataType body.data))
        table := putItem st.table (ingestItem cfg data_id timestamp body) } := rfl
  have hget : s3Get
      (applyIngestEffects st (ingest_handler cfg data_id timestamp body).1).s3
        cfg.s3Bucket (ingestKey data_id timestamp body.dataType) =
      some (BlobVal.jsonText (ingestDoc body.dataType body.data)) := by
    rw [hst]
    exact s3Get_s3Put _ _ _ _
  have hitem : getItem
      (applyIngestEffects st (ingest_handler cfg data_id timestamp body).1).table
        data_id = some (ingestItem cfg data_id timestamp body) := by
    rw [hst]
    exact getItem_putItem_fresh st.table (ingestItem cfg data_id timestamp body) hfresh
  have hloc : (ingestItem cfg data_id timestamp body).s3Location =
      some (ingestLoc cfg data_id timestamp body.dataType) := rfl
  refine ⟨hparse, hget, ?_, ?_⟩
  · simp only [get_content, if_neg hid, hitem, hloc, hparse, hget]
  · simp only [index_by_id, hitem, hloc, hparse, hget]
    rfl

/-- C10 witness data: a concrete ingest into an empty shared state. -/
def c10WBody : IngestBody := { dataType := some (str "sales"), data := some (str "doc") }

def c10WCfg : IngestConfig := { s3Bucket := str "lake" }

def c10WState : IndexState := { s3 := [], table := [], es := [] }

/-- C10, witness at a concrete ingest. -/
theorem c10_location_roundtrip_witness :
    parseS3Location (ingestLoc c10WCfg (str "id1") (str "2024-01-02T03") c10WBody.dataType) =
      Except.ok (c10WCfg.s3Bucket, ingestKey (str "id1") (str "2024-01-02T03") c10WBody.dataType) ∧
    s3Get (applyIngestEffects c10WState
        (ingest_handler c10WCfg (str "id1") (str "2024-01-02T03") c10WBody).1).s3
        c10WCfg.s3Bucket (ingestKey (str "id1") (str "2024-01-02T03") c10WBody.dataType) =
      some (BlobVal.jsonText (ingestDoc c10WBody.dataType c10WBody.data)) ∧
    get_content
        (applyIngestEffects c10WState
          (ingest_handler c10WCfg (str "id1") (str "2024-01-02T03") c10WBody).1).s3
        (applyIngestEffects c10WState
          (ingest_handler c10WCfg (str "id1") (str "2024-01-02T03") c10WBody).1).table
        (some (str "id1")) =
      Except.ok
        { success := true,
          metadata := some (ingestItem c10WCfg (str "id1") (str "2024-01-02T03") c10WBody),
          content := some (ingestDoc c10WBody.dataType c10WBody.data) } ∧
    index_by_id { esEndpoint := some (str "es") } (str "t9")
        (applyIngestEffects c10WState
          (ingest_handler c10WCfg (str "id1") (str "2024-01-02T03") c10WBody).1)
        (str "id1") =
      Except.ok
        ({ applyIngestEffects c10WState
              (ingest_handler c10WCfg (str "id1") (str "2024-01-02T03") c10WBody).1 with
            es := index_in_elasticsearch { esEndpoint := some (str "es") }
                (applyIngestEffects c10WState
                  (ingest_handler c10WCfg (str "id1") (str "2024-01-02T03") c10WBody).1).es
                (dataIndexName (ingestDataType c10WBody.dataType)) (str "id1")
                (EsDoc.dataDoc (ingestItem c10WCfg (str "id1") (str "2024-01-02T03") c10WBody)
                  (ingestDoc c10WBody.dataType c10WBody.data) (str "t9"))
            table := updateIndexed
                (applyIngestEffects c10WState
                  (ingest_handler c10WCfg (str "id1") (str "2024-01-02T03") c10WBody).1).table
                (str "id1") (str "t9") },
         { statusCode := 200, success := true }) :=
  c10_location_roundtrip c10WCfg { esEndpoint := some (str "es") }
    (str "id1") (str "2024-01-02T03") (str "t9") c10WBody c10WState
    (by decide) (by decide) (by decide)

theorem find?_map_setIndexed (xs : List MetadataItem) (i now : Str)
    (m : MetadataItem)
    (h : xs.find? (fun x => x.id == i) = some m) :
    (xs.map (fun x => if x.id == i then setIndexed now x else x)).find?
        (fun x => x.id == i) = some (setIndexed now m) := by
  induction xs with
  | nil => simp at h
  | cons x xs ih =>
    by_cases hx : (x.id == i) = true
    · have hstep : List.find? (fun y => y.id == i) (x :: xs) = some x :=
        List.find?_cons_of_pos xs hx
      rw [hstep] at h
      injection h with h
      subst h
      simp only [List.map_cons, if_pos hx]
      exact List.find?_cons_of_pos _ hx
    · have hstep : List.find? (fun y => y.id == i) (x :: xs) =
          List.find? (fun y => y.id == i) xs :=
        List.find?_cons_of_neg xs hx
      rw [hstep] at h
      simp only [List.map_cons, if_neg hx]
      have hstep2 : List.find? (fun y => y.id == i)
          (x :: List.map (fun z => if z.id == i then setIndexed now z else z) xs) =
          List.find? (fun y => y.id == i)
            (List.map (fun z => if z.id == i then setIndexed now z else z) xs) :=
        List.find?_cons_of_neg _ hx
      rw [hstep2]
      exact ih h

theorem getItem_updateIndexed_of_some (table : MetaTable) (i now : Str)
    (m : MetadataItem) (h : getItem table i = some m) :
    getItem (updateIndexed table i now) i = some (setIndexed now m) := by
  have hmem := List.mem_of_find?_eq_some h
  have hp := List.find?_some h
  have hany : table.any (fun x => x.id == i) = true :=
    List.any_eq_true.mpr ⟨m, hmem, hp⟩
  unfold updateIndexed
  rw [if_pos hany]
  exact find?_map_setIndexed table i now m h

theorem countP_esPut (es : EsIndex) (idx docId : Str) (doc : EsDoc) :
    (esPut es idx docId doc).countP (fun e => e.1 == (idx, docId)) = 1 := by
  unfold esPut
  rw [List.countP_cons]
  have h0 : (es.filter (fun e => !(e.1 == (idx, docId)))).countP
      (fun e => e.1 == (idx, docId)) = 0 := by
    rw [List.countP_filter]
    have he : (fun (a : (Str × Str) × EsDoc) =>
        (a.1 == (idx, docId)) && !(a.1 == (idx, docId))) = fun _ => false := by
      funext a
      exact Bool.and_not_self _
    rw [he, List.countP_false]
    rfl
  rw [h0]
  simp

/-- C7: indexing the same id twice with unchanged blob content succeeds both
times, upserts under the same (index name, document id) both times so that
exactly one document exists in the target index for that id after either
call, and the record's indexed flag is true after either call. -/
theorem c7_idempotent_indexing (cfg : IndexConfig) (now : Str)
    (st : IndexState) (i loc b k d ep : Str) (m : MetadataItem)
    (hmeta : getItem st.table i = some m)
    (hloc : m.s3Location = some loc)
    (hparse : parseS3Location loc = Except.ok (b, k))
    (hs3 : s3Get st.s3 b k = some (BlobVal.jsonText d))
    (hep : cfg.esEndpoint = some ep) :
    ∃ st1 st2,
      index_by_id cfg now st i =
        Except.ok (st1, { statusCode := 200, success := true }) ∧
      index_by_id cfg now st1 i =
        Except.ok (st2, { statusCode := 200, success := true }) ∧
      st1.es.countP (fun e => e.1 == (indexByIdUpsertIndexName m, i)) = 1 ∧
      st2.es.countP (fun e => e.1 == (indexByIdUpsertIndexName m, i)) = 1 ∧
      (∃ m1, getItem st1.table i = some m1 ∧ m1.indexed = some true) ∧
      (∃ m2, getItem st2.table i = some m2 ∧ m2.indexed = some true) := by
  have h1 : index_by_id cfg now st i =
      Except.ok
        ({ st with
            es := esPut st.es (lowerStr (dataIndexName (getDataType m))) i
              (EsDoc.dataDoc m d now)
            table := updateIndexed st.table i now },
         { statusCode := 200, success := true }) := by
    simp only [index_by_id, hmeta, hloc, hparse, hs3, index_in_elasticsearch, hep]
  have hmeta1 : getItem (updateIndexed st.table i now) i =
      some (setIndexed now m) :=
    getItem_updateIndexed_of_some st.table i now m hmeta
  have h2 : index_by_id cfg now
      ({ st with
          es := esPut st.es (lowerStr (dataIndexName (getDataType m))) i
            (EsDoc.dataDoc m d now)
          table := updateIndexed st.table i now }) i =
      Except.ok
        ({ st with
            es := esPut
              (esPut st.es (lowerStr (dataIndexName (getDataType m))) i
                (EsDoc.dataDoc m d now))
              (lowerStr (dataIndexName (getDataType m))) i
              (EsDoc.dataDoc (setIndexed now m) d now)
            table := updateIndexed (updateIndexed st.table i now) i now },
         { statusCode := 200, success := true }) := by
    have hloc1 : (setIndexed now m).s3Location = some loc := hloc
    have hs31 : s3Get
        ({ st with
            es := esPut st.es (lowerStr (dataIndexName (getDataType m))) i
              (EsDoc.dataDoc m d now)
            table := updateIndexed st.table i now } : IndexState).s3 b k =
        some (BlobVal.jsonText d) := hs3
    simp only [index_by_id, hmeta1, hloc1, hparse, hs31,
      index_in_elasticsearch, hep]
    rfl
  have hmeta2 : getItem (updateIndexed (updateIndexed st.table i now) i now) i =
      some (setIndexed now (setIndexed now m)) :=
    getItem_updateIndexed_of_some (updateIndexed st.table i now) i now
      (setIndexed now m) hmeta1
  refine ⟨_, _, h1, h2, ?_, ?_,
    ⟨setIndexed now m, hmeta1, rfl⟩,
    ⟨setIndexed now (setIndexed now m), hmeta2, rfl⟩⟩
  · exact countP_esPut st.es _ i _
  · exact countP_esPut _ _ i _

/-- C7, witness at a concrete one-record state. -/
theorem c7_idempotent_indexing_witness :
    ∃ st1 st2,
      index_by_id { esEndpoint := some (str "es") } (str "t0")
          { s3 := [((str "b", str "k"), BlobVal.jsonText (str "doc"))],
            table := [{ id := str "x", dataType := some (str "sales"),
                        s3Location := some (str "s3://b/k") }],
            es := [] } (str "x") =
        Except.ok (st1, { statusCode := 200, success := true }) ∧
      index_by_id { esEndpoint := some (str "es") } (str "t0") st1 (str "x") =
        Except.ok (st2, { statusCode := 200, success := true }) ∧
      st1.es.countP (fun e => e.1 ==
        (indexByIdUpsertIndexName
          { id := str "x", dataType := some (str "sales"),
            s3Location := some (str "s3://b/k") }, str "x")) = 1 ∧
      st2.es.countP (fun e => e.1 ==
        (indexByIdUpsertIndexName
          { id := str "x", dataType := some (str "sales"),
            s3Location := some (str "s3://b/k") }, str "x")) = 1 ∧
      (∃ m1, getItem st1.table (str "x") = some m1 ∧ m1.indexed = some true) ∧
      (∃ m2, getItem st2.table (str "x") = some m2 ∧ m2.indexed = some true) :=
  c7_idempotent_indexing { esEndpoint := some (str "es") } (str "t0")
    { s3 := [((str "b", str "k"), BlobVal.jsonText (str "doc"))],
      table := [{ id := str "x", dataType := some (str "sales"),
                  s3Location := some (str "s3://b/k") }],
      es := [] }
    (str "x") (str "s3://b/k") (str "b") (str "k") (str "doc") (str "es")
    { id := str "x", dataType := some (str "sales"),
      s3Location := some (str "s3://b/k") }
    (by decide) (by decide) rfl (by decide) (by decide)

/-- C9: the claim as stated is false.  With ES_ENDPOINT unset, an on-demand
index request succeeds per-request: the handler answers 200 success, marks
the record indexed, and silently skips the search write. -/
theorem c9_counterexample :
    index_by_id { esEndpoint := none } (str "t0")
        { s3 := [((str "b", str "k"), BlobVal.jsonText (str "doc"))],
          table := [{ id := str "x", dataType := some (str "sales"),
                      s3Location := some (str "s3://b/k") }],
          es := [] } (str "x") =
      Except.ok
        ({ s3 := [((str "b", str "k"), BlobVal.jsonText (str "doc"))],
           table := [setIndexed (str "t0")
             { id := str "x", dataType := some (str "sales"),
               s3Location := some (str "s3://b/k") }],
           es := [] },
         { statusCode := 200, success := true }) := by
  rfl

/-- C9 amended: an unset search endpoint is tolerated per-request, not
rejected at startup: index_in_elasticsearch logs a warning and skips the
write, and index_by_id still returns 200 success, leaves the search index
unchanged, and marks the record indexed. -/
theorem c9_amended (cfg : IndexConfig) (now : Str) (st : IndexState)
    (i loc b k d : Str) (m : MetadataItem)
    (hnone : cfg.esEndpoint = none)
    (hmeta : getItem st.table i = some m)
    (hloc : m.s3Location = some loc)
    (hparse : parseS3Location loc = Except.ok (b, k))
    (hs3 : s3Get st.s3 b k = some (BlobVal.jsonText d)) :
    index_by_id cfg now st i =
      Except.ok ({ st with table := updateIndexed st.table i now },
        { statusCode := 200, success := true }) ∧
    ({ st with table := updateIndexed st.table i now } : IndexState).es = st.es ∧
    getItem (updateIndexed st.table i now) i = some (setIndexed now m) ∧
    (setIndexed now m).indexed = some true := by
  refine ⟨?_, rfl, getItem_updateIndexed_of_some st.table i now m hmeta, rfl⟩
  simp only [index_by_id, hmeta, hloc, hparse, hs3, index_in_elasticsearch, hnone]

/-- C9 amended, witness at a concrete one-record state. -/
theorem c9_amended_witness :
    index_by_id { esEndpoint := none } (str "t0")
        { s3 := [((str "b", str "k"), BlobVal.jsonText (str "doc"))],
          table := [{ id := str "x", dataType := some (str "sales"),
                      s3Location := some (str "s3://b/k") }],
          es := [] } (str "x") =
      Except.ok
        ({ ({ s3 := [((str "b", str "k"), BlobVal.jsonText (str "doc"))],
              table := [{ id := str "x", dataType := some (str "sales"),
                          s3Location := some (str "s3://b/k") }],
              es := [] } : IndexState) with
            table := updateIndexed
              [{ id := str "x", dataType := some (str "sales"),
                 s3Location := some (str "s3://b/k") }] (str "x") (str "t0") },
         { statusCode := 200, success := true }) ∧
    ({ ({ s3 := [((str "b", str "k"), BlobVal.jsonText (str "doc"))],
          table := [{ id := str "x", dataType := some (str "sales"),
                      s3Location := some (str "s3://b/k") }],
          es := [] } : IndexState) with
        table := updateIndexed
          [{ id := str "x", dataType := some (str "sales"),
             s3Location := some (str "s3://b/k") }] (str "x") (str "t0") } :
        IndexState).es =
      ({ s3 := [((str "b", str "k"), BlobVal.jsonText (str "doc"))],
         table := [{ id := str "x", dataType := some (str "sales"),
                     s3Location := some (str "s3://b/k") }],
         es := [] } : IndexState).es ∧
    getItem (updateIndexed
        [{ id := str "x", dataType := some (str "sales"),
           s3Location := some (str "s3://b/k") }] (str "x") (str "t0"))
        (str "x") =
      some (setIndexed (str "t0")
        { id := str "x", dataType := some (str "sales"),
          s3Location := some (str "s3://b/k") }) ∧
    (setIndexed (str "t0")
      { id := str "x", dataType := some (str "sales"),
        s3Location := some (str "s3://b/k") }).indexed = some true :=
  c9_amended { esEndpoint := none } (str "t0")
    { s3 := [((str "b", str "k"), BlobVal.jsonText (str "doc"))],
      table := [{ id := str "x", dataType := some (str "sales"),
                  s3Location := some (str "s3://b/k") }],
      es := [] }
    (str "x") (str "s3://b/k") (str "b") (str "k") (str "doc")
    { id := str "x", dataType := some (str "sales"),
      s3Location := some (str "s3://b/k") }
    (by decide) (by decide) (by decide) rfl (by decide)

/-! Embedding of lambda-function.py, the OpenSearch file-processing handler. -/

/-- A stored file for the file-processing handler, abstracted by the outcome
of the pandas parse: a dataframe with a known record count, or content the
parser raises on. -/
inductive FileVal where
  | table (rows : Nat)
  | bad
  deriving DecidableEq, Repr

/-- The blob store as seen by lambda-function.py. -/
abbrev LFStore := List ((Str × Str) × FileVal)

/-- S3 get_object for the file-processing handler. -/
def lfGet (store : LFStore) (bucket key : Str) : Option FileVal :=
  (store.find? (fun e => e.1 == (bucket, key))).map (·.2)

/-- detect_file_type (lambda-function.py, lines 64-73). -/
def detect_file_type (key : Str) : Str :=
  if (str ".csv").isSuffixOf key then str "csv"
  else if (str ".json").isSuffixOf key then str "json"
  else if (str ".parquet").isSuffixOf key then str "parquet"
  else str "unknown"

/-- read_file_content (lambda-function.py, lines 75-106): get_object raises
when the key is absent, an unsupported type returns None without error, and
a parser failure raises. -/
def read_file_content (store : LFStore) (bucket key : Str) :
    Except PyErr (Option Nat) :=
  match lfGet store bucket key with
  | none => Except.error (PyErr.clientError (str "NoSuchKey"))
  | some fv =>
    if detect_file_type key = str "unknown" then Except.ok none
    else
      match fv with
      | FileVal.bad => Except.error (PyErr.valueError (str "parse error"))
      | FileVal.table n => Except.ok (some n)

/-- Python key.split(sep): every occurrence splits, empty parts kept. -/
def splitAll (sep : Char) : Str → List Str
  | [] => [[]]
  | c :: rest =>
    let r := splitAll sep rest
    if c = sep then [] :: r
    else (c :: r.headI) :: r.tail

/-- Python os.path.dirname: everything before the final slash, empty when
the path has none. -/
def dirname (p : Str) : Str :=
  ((p.reverse.dropWhile (fun c => c != '/')).tail).reverse

/-- Python key.replace with the raw/ pattern and the processed/ replacement,
left to right over non-overlapping occurrences. -/
def replaceRawWithProcessed : Str → Str
  | [] => []
  | c :: rest =>
    if (str "raw/").isPrefixOf (c :: rest) then
      str "processed/" ++ replaceRawWithProcessed (rest.drop 3)
    else
      c :: replaceRawWithProcessed rest
termination_by s => s.length
decreasing_by
  all_goals simp [List.length_drop]
  all_goals omega

/-- Python key.endswith for a single character. -/
def endsWithSlash (s : Str) : Bool := s.getLast? == some '/'

/-- Configuration of lambda-function.py: the ENVIRONMENT tag and the
OpenSearch endpoint the describe_domain call resolves (none when the call
raises). -/
structure LFConfig where
  environment : Str
  endpoint? : Option Str
  deriving DecidableEq, Repr

/-- The side effects process_file issues: index creation, the bulk document
write, the directory marker, and the processed copy. -/
inductive LFEff where
  | createIndex (name : Str)
  | bulkIndex (name : Str) (docs : Nat)
  | putDirMarker (bucket dir : Str)
  | putProcessed (bucket key : Str)
  deriving DecidableEq, Repr

/-- The success result of process_file. -/
structure LFResult where
  indexName : Str
  recordsIndexed : Nat
  processedFile : Str
  deriving DecidableEq, Repr

/-- The index name built by process_file (lines 177-193): the directory
under raw/ when the path has one, else the file name without extension, with
the environment tag appended and hyphens turned into underscores. -/
def lfIndexName (env key : Str) : Str :=
  let path_parts := splitAll '/' key
  let dataset_name :=
    if 3 ≤ path_parts.length ∧ path_parts.headI = str "raw" then
      lowerStr ((path_parts.drop 1).headI)
    else lowerStr (splitextRoot (basename key))
  (dataset_name ++ ['_'] ++ env).map (fun c => if c = '-' then '_' else c)

/-- process_file (lambda-function.py, lines 174-245): keys with fewer than
two path segments are skipped with no effects and no error; otherwise the
index is ensured, the file is read (an unsupported type yields no indexing
and no result), the rows are bulk-indexed, and a processed copy is written
next to a directory marker.  Effects issued before a raise are dropped
together with the error by this model. -/
def process_file (cfg : LFConfig) (store : LFStore) (bucket key : Str) :
    Except PyErr (List LFEff × Option LFResult) :=
  if (splitAll '/' key).length < 2 then Except.ok ([], none)
  else
    let index_name := lfIndexName cfg.environment key
    match cfg.endpoint? with
    | none => Except.error (PyErr.clientError (str "describe_domain failed"))
    | some _ =>
      match read_file_content store bucket key with
      | Except.error e => Except.error e
      | Except.ok none => Except.ok ([LFEff.createIndex index_name], none)
      | Except.ok (some n) =>
        let processed_key := replaceRawWithProcessed key
        let d := dirname processed_key
        let dirEffs :=
          if d = [] then [] else [LFEff.putDirMarker bucket (d ++ ['/'])]
        let saveEffs :=
          if (str ".csv").isSuffixOf processed_key ∨
              (str ".json").isSuffixOf processed_key ∨
              (str ".parquet").isSuffixOf processed_key then
            [LFEff.putProcessed bucket processed_key]
          else []
        Except.ok
          (LFEff.createIndex index_name :: LFEff.bulkIndex index_name n ::
            (dirEffs ++ saveEffs),
           some { indexName := index_name, recordsIndexed := n,
                  processedFile := processed_key })

/-- One record of the S3 event notification; the key is taken already
URL-decoded (unquote_plus is the identity on the decoded form). -/
structure LFRecord where
  eventSource : Str
  eventName : Str
  bucket : Str
  key : Str
  deriving DecidableEq, Repr

/-- The record loop of lambda_handler (lambda-function.py, lines 253-270):
non-S3 and non-ObjectCreated records are ignored, directory-marker keys are
skipped with a log line, and the first raised error aborts the loop. -/
def lf_process_records (cfg : LFConfig) (store : LFStore) :
    List LFRecord → List LFEff × Option PyErr
  | [] => ([], none)
  | r :: rest =>
    if r.eventSource == str "aws:s3" &&
        (str "ObjectCreated:").isPrefixOf r.eventName then
      if endsWithSlash r.key then lf_process_records cfg store rest
      else
        match process_file cfg store r.bucket r.key with
        | Except.error e => ([], some e)
        | Except.ok (effs, _) =>
          let t := lf_process_records cfg store rest
          (effs ++ t.1, t.2)
    else lf_process_records cfg store rest

/-- lambda_handler of lambda-function.py (lines 247-281): 200 when the loop
completes, 500 when some record raised. -/
def lambda_function_handler (cfg : LFConfig) (store : LFStore)
    (records : List LFRecord) : List LFEff × HttpResp :=
  match lf_process_records cfg store records with
  | (effs, none) => (effs, { statusCode := 200, bodySuccess := true })
  | (_, some _) => ([], { statusCode := 500, bodySuccess := false })

theorem splitAll_length_pos (sep : Char) (s : Str) :
    1 ≤ (splitAll sep s).length := by
  induction s with
  | nil => simp [splitAll]
  | cons c cs ih =>
    by_cases hc : c = sep
    · simp [splitAll, hc]
    · simp [splitAll, hc]

theorem splitAll_length_of_mem (s : Str) (h : ('/' : Char) ∈ s) :
    2 ≤ (splitAll '/' s).length := by
  induction s with
  | nil => cases h
  | cons c cs ih =>
    by_cases hc : c = '/'
    · have := splitAll_length_pos '/' cs
      simp only [splitAll, if_pos hc, List.length_cons]
      omega
    · have hcs : ('/' : Char) ∈ cs := by
        cases h with
        | head => exact absurd rfl hc
        | tail _ h2 => exact h2
      have h2 := ih hcs
      have h1 := splitAll_length_pos '/' cs
      simp only [splitAll, if_neg hc, List.length_cons, List.length_tail]
      omega

theorem not_slash_of_shallow (key : Str)
    (hdepth : (splitAll '/' key).length < 2) : ('/' : Char) ∉ key := by
  intro hmem
  exact absurd (splitAll_length_of_mem key hmem) (by omega)

theorem endsWithSlash_eq_false_of_shallow (key : Str)
    (hdepth : (splitAll '/' key).length < 2) : endsWithSlash key = false := by
  unfold endsWithSlash
  cases hl : key.getLast? with
  | none => rfl
  | some c =>
    by_cases hc : c = '/'
    · subst hc
      have hx : ('/' : Char) ∈ key.getLast? := by rw [hl]; rfl
      obtain ⟨hne, heq⟩ := List.mem_getLast?_eq_getLast hx
      have hmem : key.getLast hne ∈ key := List.getLast_mem hne
      rw [← heq] at hmem
      exact absurd hmem (not_slash_of_shallow key hdepth)
    · simp [hc]

/-- C6: the claim as stated is false for the blob-event path of
index-data-lambda.py, which applies no path-depth check: the one-segment key
x.json with parseable JSON is fetched, indexed into data-sales, and marked
indexed, rather than being skipped. -/
theorem c6_counterexample :
    (splitAll '/' (str "x.json")).length < 2 ∧
    index_s3_object { esEndpoint := some (str "es") } (str "t0")
        { s3 := [((str "b", str "x.json"), BlobVal.jsonText (str "doc"))],
          table := [{ id := str "x", dataType := some (str "sales"),
                      s3Location := some (str "s3://b/x.json") }],
          es := [] } (str "b") (str "x.json") =
      Except.ok
        { s3 := [((str "b", str "x.json"), BlobVal.jsonText (str "doc"))],
          table := [setIndexed (str "t0")
            { id := str "x", dataType := some (str "sales"),
              s3Location := some (str "s3://b/x.json") }],
          es := [((str "data-sales", str "x"),
            EsDoc.dataDoc
              { id := str "x", dataType := some (str "sales"),
                s3Location := some (str "s3://b/x.json") }
              (str "doc") (str "t0"))] } := by
  exact ⟨by decide, by rfl⟩

/-- C6 amended: in the file-processing handler of lambda-function.py, keys
ending in a slash and keys with fewer than two path segments are silently
skipped — no index write, no processed copy, no error, a 200 response; the
blob-event path of index-data-lambda.py performs no such path-depth skip. -/
theorem c6_amended (cfg : LFConfig) (store : LFStore) (r r2 : LFRecord)
    (hslash : endsWithSlash r.key = true)
    (hdepth : (splitAll '/' r2.key).length < 2) :
    lambda_function_handler cfg store [r] =
      ([], { statusCode := 200, bodySuccess := true }) ∧
    process_file cfg store r2.bucket r2.key = Except.ok ([], none) ∧
    lambda_function_handler cfg store [r2] =
      ([], { statusCode := 200, bodySuccess := true }) := by
  have hpf : process_file cfg store r2.bucket r2.key = Except.ok ([], none) := by
    unfold process_file
    rw [if_pos hdepth]
  have hns := endsWithSlash_eq_false_of_shallow r2.key hdepth
  refine ⟨?_, hpf, ?_⟩
  · unfold lambda_function_handler
    have h1 : lf_process_records cfg store [r] = ([], none) := by
      unfold lf_process_records
      by_cases hrel : (r.eventSource == str "aws:s3" &&
          (str "ObjectCreated:").isPrefixOf r.eventName) = true
      · rw [if_pos hrel, if_pos hslash]
        rfl
      · rw [if_neg hrel]
        rfl
    rw [h1]
  · unfold lambda_function_handler
    have h2 : lf_process_records cfg store [r2] = ([], none) := by
      unfold lf_process_records
      by_cases hrel : (r2.eventSource == str "aws:s3" &&
          (str "ObjectCreated:").isPrefixOf r2.eventName) = true
      · rw [if_pos hrel, if_neg (by rw [hns]; exact Bool.false_ne_true), hpf]
        rfl
      · rw [if_neg hrel]
        rfl
    rw [h2]

/-- C6 amended, witness: a directory-marker key under raw and a bare
one-segment file key. -/
theorem c6_amended_witness :
    lambda_function_handler
        { environment := str "dev", endpoint? := some (str "os") } []
        [{ eventSource := str "aws:s3", eventName := str "ObjectCreated:Put",
           bucket := str "b", key := str "raw/data/" }] =
      ([], { statusCode := 200, bodySuccess := true }) ∧
    process_file { environment := str "dev", endpoint? := some (str "os") } []
        (str "b") (str "file.csv") = Except.ok ([], none) ∧
    lambda_function_handler
        { environment := str "dev", endpoint? := some (str "os") } []
        [{ eventSource := str "aws:s3", eventName := str "ObjectCreated:Put",
           bucket := str "b", key := str "file.csv" }] =
      ([], { statusCode := 200, bodySuccess := true }) :=
  c6_amended { environment := str "dev", endpoint? := some (str "os") } []
    { eventSource := str "aws:s3", eventName := str "ObjectCreated:Put",
      bucket := str "b", key := str "raw/data/" }
    { eventSource := str "aws:s3", eventName := str "ObjectCreated:Put",
      bucket := str "b", key := str "file.csv" }
    (by decide) (by decide)

end DataLake
